import Mathlib

/-!
Verification of the installation/upgrade orchestrator of SD-WingetDeploy
(src/winget.py) against its natural-language specification.

Text is modelled as `List Char`.  Python string operations used by the
source (`str.strip`, `str.rstrip("\r\n")`, `str.split`, `str.splitlines`,
`re.search` for the three fixed marker patterns and for the
`(\d+)\.(\d+)\.(\d+)` version pattern) are embedded as executable Lean
functions below.  Subprocess interaction is made explicit: each modelled
operation receives the stream lines, the exit code and the captured
stderr of the external process as parameters, and returns the value the
Python function would return, with raised exceptions embedded as
`Except.error` and side effects (callback invocations, file writes)
recorded in the returned value.
-/

namespace WingetDeploy

/-- Whitespace characters stripped by Python `str.strip()` (ASCII range). -/
def pyIsSpace (c : Char) : Bool :=
  c = ' ' || c = '\t' || c = '\n' || c = '\r' || c = '\x0b' || c = '\x0c'

/-- Python `str.strip()`: drop whitespace from both ends. -/
def pyStrip (s : List Char) : List Char :=
  ((s.dropWhile pyIsSpace).reverse.dropWhile pyIsSpace).reverse

/-- Python `line.rstrip("\r\n")`: drop trailing carriage returns and newlines. -/
def rstripCRLF (s : List Char) : List Char :=
  (s.reverse.dropWhile (fun c => c = '\r' || c = '\n')).reverse

/-- Python `s.split(sep)` for a one-character separator: `"".split(",") = [""]`. -/
def splitOnChar (sep : Char) : List Char → List (List Char)
  | [] => [[]]
  | c :: rest =>
    if c = sep then [] :: splitOnChar sep rest
    else
      match splitOnChar sep rest with
      | [] => [[c]]
      | g :: gs => (c :: g) :: gs

/-- Python `str.splitlines()` for newline-terminated text:
`"".splitlines() = []`, `"a\n".splitlines() = ["a"]`. -/
def pySplitlines : List Char → List (List Char)
  | [] => []
  | c :: rest =>
    if c = '\n' then [] :: pySplitlines rest
    else
      match pySplitlines rest with
      | [] => [[c]]
      | l :: ls => (c :: l) :: ls

/-- Python `"\n".join(parts)`. -/
def joinNL (parts : List (List Char)) : List Char :=
  List.intercalate ['\n'] parts

/-!
The three marker regexes of `run_winget_ps_install` all have the shape
`<literal>\s*(.+)$` and are applied with `re.search` followed by
`.group(1).strip()`.  For a line without embedded newlines this is
equivalent to: find the leftmost occurrence of the literal that is
followed by at least one character, and strip the remainder of the line.
`reSearchTail` returns that remainder.
-/

/-- Leftmost occurrence of `marker` followed by a nonempty tail; returns
the tail after the marker (the raw capture region before stripping). -/
def reSearchTail (marker : List Char) : List Char → Option (List Char)
  | [] => none
  | c :: rest =>
    let tail := List.drop marker.length (c :: rest)
    if marker.isPrefixOf (c :: rest) && !tail.isEmpty then some tail
    else reSearchTail marker rest

/-- `re.search(r"<marker>\s*(.+)$", line)` followed by `.group(1).strip()`. -/
def markerCapture (marker line : List Char) : Option (List Char) :=
  (reSearchTail marker line).map pyStrip

def startMarker : List Char := "Installing app via winget:".data

def okMarker : List Char := "App installed successfully:".data

def failedMarker : List Char := "FAILED_APPS:".data

/-- `[s.strip() for s in tail.split(",") if s.strip()]` on the stripped capture. -/
def parseFailedIds (cap : List Char) : List (List Char) :=
  ((splitOnChar ',' cap).map pyStrip).filter (fun s => !s.isEmpty)

/-- Events delivered to the `on_event` callback of `run_winget_ps_install`. -/
inductive PsEvent where
  | line (text : List Char)
  | start (appId : List Char)
  | ok (appId : List Char)
deriving DecidableEq

/-- Mutable state of the stdout loop of `run_winget_ps_install`:
`installed`, `failed_ids_from_summary` and the callback invocations. -/
structure InstallLoop where
  installed : List (List Char)
  failedFromSummary : List (List Char)
  events : List PsEvent
deriving DecidableEq

def installLoopInit : InstallLoop := ⟨[], [], []⟩

/-- One iteration of the `for line in proc.stdout` loop of
`run_winget_ps_install` (src/winget.py lines 218-243): rstrip the line,
emit the raw line event, then try the start / ok / failed markers in
that order, each ending the iteration on a match. -/
def installStep (st : InstallLoop) (raw : List Char) : InstallLoop :=
  let line := rstripCRLF raw
  let st1 := { st with events := st.events ++ [PsEvent.line line] }
  match markerCapture startMarker line with
  | some sid => { st1 with events := st1.events ++ [PsEvent.start sid] }
  | none =>
    match markerCapture okMarker line with
    | some oid =>
      { st1 with
        installed := st1.installed ++ [oid],
        events := st1.events ++ [PsEvent.ok oid] }
    | none =>
      match markerCapture failedMarker line with
      | some cap => { st1 with failedFromSummary := parseFailedIds cap }
      | none => st1

/-- Exceptions raised by `run_winget_ps_install`. -/
inductive InstallError where
  | fileNotFound
  | processFailure (message : List Char)
deriving DecidableEq

/-- The value returned by `run_winget_ps_install`, together with the
observable side effects of the call: the callback invocations, whether a
subprocess was spawned, and the log files written (the source performs
no file write in this function, see `run_winget_ps_setup` for the one
place a log artifact is written). -/
structure InstallOutcome where
  installed : List (List Char)
  failed : List (List Char)
  events : List PsEvent
  spawned : Bool
  writes : List (List Char)
deriving DecidableEq

/-- Message of the RuntimeError raised when the process exits non-zero
with no marker-derived result (src/winget.py lines 254-256). -/
def installFailMsg (stderr : List Char) : List Char :=
  let base :=
    if (pyStrip stderr).isEmpty then "Unbekannter Fehler".data else pyStrip stderr
  "Winget-Installation ist fehlgeschlagen:\n".data ++
    joinNL ((pySplitlines base).take 10)

/-- `run_winget_ps_install` (src/winget.py lines 176-258).
`scriptExists` models `WINGET_SETUP_PS.exists()`; `streamLines`, `rc`
and `stderr` are the stdout lines, exit code and captured stderr of the
spawned PowerShell process. -/
def run_winget_ps_install (scriptExists : Bool) (app_ids : List (List Char))
    (streamLines : List (List Char)) (rc : Int) (stderr : List Char) :
    Except InstallError InstallOutcome :=
  if app_ids.isEmpty then
    .ok ⟨[], [], [], false, []⟩
  else if !scriptExists then
    .error .fileNotFound
  else
    let st := streamLines.foldl installStep installLoopInit
    let failed :=
      if st.failedFromSummary = [] then [] else st.failedFromSummary
    if rc ≠ 0 ∧ failed = [] ∧ st.installed = [] then
      .error (.processFailure (installFailMsg stderr))
    else
      .ok ⟨st.installed, failed, st.events, true, []⟩

/-- Failed list of a returned result (`none` when an exception was raised). -/
def failedOf : Except InstallError InstallOutcome → Option (List (List Char))
  | .error _ => none
  | .ok r => some r.failed

/-- Succeeded list of a returned result (`none` when an exception was raised). -/
def installedOf : Except InstallError InstallOutcome → Option (List (List Char))
  | .error _ => none
  | .ok r => some r.installed

/-- File writes performed by a run that returned a result. -/
def writesOf : Except InstallError InstallOutcome → Option (List (List Char))
  | .error _ => none
  | .ok r => some r.writes

/-!  ## Setup mode (`run_winget_ps_setup`, src/winget.py lines 117-173) -/

/-- Python `str(i)` for an integer. -/
def intToChars (i : Int) : List Char :=
  if i < 0 then '-' :: Nat.toDigits 10 i.natAbs else Nat.toDigits 10 i.toNat

/-- Exceptions raised by `run_winget_ps_setup`. -/
inductive SetupError where
  | fileNotFound
  | setupFailure (message : List Char)
deriving DecidableEq

/-- Name of the log artifact written by the setup path (the full path is
`EXE_DIR / "winget-setup.log"`; the directory part is host state and is
abstracted away). -/
def winget_setup_log : List Char := "winget-setup.log".data

/-- Message of the RuntimeError raised when the setup process exits
non-zero: stderr, falling back to stdout, falling back to a generic
error-code string, always followed by a pointer to the log file. -/
def setupFailMsg (rc : Int) (stdout stderr : List Char) : List Char :=
  let base :=
    if ¬(pyStrip stderr).isEmpty then pyStrip stderr
    else if ¬(pyStrip stdout).isEmpty then pyStrip stdout
    else "Winget-Setup Fehlercode ".data ++ intToChars rc
  base ++ "\n\nDetails siehe Log-Datei:\n".data ++ winget_setup_log

/-- `run_winget_ps_setup` (src/winget.py lines 117-173).  `rc`, `stdout`
and `stderr` are the exit code and captured output of the spawned
process; `logWriteOk` models whether the `open(...).write(...)` of the
log artifact succeeds (its failure is swallowed by `except Exception:
pass`).  Returns the list of files actually written and the outcome. -/
def run_winget_ps_setup (scriptExists : Bool) (rc : Int)
    (stdout stderr : List Char) (logWriteOk : Bool) :
    List (List Char) × Except SetupError Unit :=
  if !scriptExists then
    ([], .error .fileNotFound)
  else
    let writes := if logWriteOk then [winget_setup_log] else []
    if rc ≠ 0 then
      (writes, .error (.setupFailure (setupFailMsg rc stdout stderr)))
    else
      (writes, .ok ())

/-!  ## Dependency probe (`get_winget_state`, src/winget.py lines 371-407) -/

def MIN_WINGET_VERSION : Nat × Nat × Nat := (1, 12, 0)

inductive WingetState where
  | missing
  | outdated
  | ok
deriving DecidableEq

/-- Numeric value of a digit run, as Python `int(...)` computes it. -/
def digitsVal (ds : List Char) : Nat :=
  ds.foldl (fun a c => 10 * a + (c.toNat - '0'.toNat)) 0

/-- Match of the regex `(\d+)\.(\d+)\.(\d+)` anchored at the start of `s`
(each `\d+` is greedy; no backtracking can help since a maximal digit
run is always followed by a non-digit). -/
def matchVersionAt (s : List Char) : Option (Nat × Nat × Nat) :=
  let d1 := s.takeWhile Char.isDigit
  if d1.isEmpty then none else
  match s.dropWhile Char.isDigit with
  | '.' :: r2 =>
    let d2 := r2.takeWhile Char.isDigit
    if d2.isEmpty then none else
    match r2.dropWhile Char.isDigit with
    | '.' :: r4 =>
      let d3 := r4.takeWhile Char.isDigit
      if d3.isEmpty then none
      else some (digitsVal d1, digitsVal d2, digitsVal d3)
    | _ => none
  | _ => none

/-- `_parse_version` (src/winget.py lines 380-384): leftmost match of
`(\d+)\.(\d+)\.(\d+)` via `re.search`. -/
def findVersion : List Char → Option (Nat × Nat × Nat)
  | [] => none
  | c :: rest =>
    match matchVersionAt (c :: rest) with
    | some v => some v
    | none => findVersion rest

/-- Python tuple comparison `ver_tuple < MIN_WINGET_VERSION`
(lexicographic on the three components). -/
def pyTupleLt (x y : Nat × Nat × Nat) : Bool :=
  x.1 < y.1 ||
    (x.1 = y.1 && (x.2.1 < y.2.1 || (x.2.1 = y.2.1 && x.2.2 < y.2.2)))

/-- `".".join(str(x) for x in ver_tuple)`. -/
def versionChars (v : Nat × Nat × Nat) : List Char :=
  Nat.toDigits 10 v.1 ++ '.' :: Nat.toDigits 10 v.2.1 ++ '.' :: Nat.toDigits 10 v.2.2

/-- `get_winget_state` (src/winget.py lines 387-407).  `launchOk` models
whether `_run_silent(["winget", "--version"])` ran without raising;
`rc`, `stdout`, `stderr` are its exit code and captured output. -/
def get_winget_state (launchOk : Bool) (rc : Int) (stdout stderr : List Char) :
    WingetState × Option (List Char) :=
  if !launchOk then (.missing, none)
  else if rc ≠ 0 then (.missing, none)
  else
    let txt := pyStrip (stdout ++ stderr)
    match findVersion txt with
    | none => (.ok, if txt.isEmpty then none else some txt)
    | some v =>
      if pyTupleLt v MIN_WINGET_VERSION then (.outdated, some (versionChars v))
      else (.ok, some (versionChars v))

/-!  ## Upgrade-all summary parsing (`_on_upgrade_all`, src/winget.py
lines 1213-1366) -/

/-- One record of the upgrade summary: name, id, current version,
available version. -/
structure AppRecord where
  name : List Char
  appId : List Char
  current : List Char
  available : List Char
deriving DecidableEq

def SUMMARY_BEGIN : List Char := "UPGRADE_SUMMARY_BEGIN".data

def SUMMARY_END : List Char := "UPGRADE_SUMMARY_END".data

def UPGRADE_NONE : List Char := "UPGRADE_NONE".data

def updatedMark : List Char := "UPDATED_APP: ".data

def notUpdatedMark : List Char := "NOT_UPDATED_APP: ".data

/-- `name, appid, cur, avail = (parts + ["", "", "", ""])[:4]` applied to
`[p.strip() for p in payload.split("|")]`. -/
def parseAppFields (payload : List Char) : AppRecord :=
  let parts := (splitOnChar '|' payload).map pyStrip
  let padded := parts ++ [[], [], [], []]
  ⟨padded.getD 0 [], padded.getD 1 [], padded.getD 2 [], padded.getD 3 []⟩

/-- State of the summary-parsing loop of `_on_upgrade_all`
(src/winget.py lines 1253-1281). -/
structure UpgradeSummary where
  updated : List AppRecord
  notUpdated : List AppRecord
  inside : Bool
  hadNone : Bool
deriving DecidableEq

def upgradeInit : UpgradeSummary := ⟨[], [], false, false⟩

/-- One iteration of the summary-parsing loop of `_on_upgrade_all`
(src/winget.py lines 1258-1281): sentinel lines toggle the inside flag,
every other line is ignored while outside the block; inside the block,
`UPGRADE_NONE` sets the none flag and the two app prefixes append a
parsed record. -/
def upgradeStep (st : UpgradeSummary) (line : List Char) : UpgradeSummary :=
  if line = SUMMARY_BEGIN then { st with inside := true }
  else if line = SUMMARY_END then { st with inside := false }
  else if st.inside = false then st
  else if line = UPGRADE_NONE then { st with hadNone := true }
  else if updatedMark.isPrefixOf line then
    { st with updated := st.updated ++ [parseAppFields (line.drop updatedMark.length)] }
  else if notUpdatedMark.isPrefixOf line then
    { st with notUpdated := st.notUpdated ++ [parseAppFields (line.drop notUpdatedMark.length)] }
  else st

/-- The whole summary-parsing loop over the accumulated stdout lines. -/
def parseUpgradeSummary (stdoutLines : List (List Char)) : UpgradeSummary :=
  stdoutLines.foldl upgradeStep upgradeInit

/-- Observable outcome of the `_on_upgrade_all` worker: the parsed
summary, the exit code, and the log files written (the source performs
no file write in this worker). -/
structure UpgradeOutcome where
  updated : List AppRecord
  notUpdated : List AppRecord
  hadNone : Bool
  rc : Int
  writes : List (List Char)
deriving DecidableEq

/-- The `_on_upgrade_all` worker body (src/winget.py lines 1213-1346):
empty lines are skipped while accumulating `stdout_lines`, then the
summary block is parsed from the accumulated lines. -/
def on_upgrade_all (rawLines : List (List Char)) (rc : Int) : UpgradeOutcome :=
  let stdoutLines := (rawLines.map rstripCRLF).filter (fun l => !l.isEmpty)
  let st := parseUpgradeSummary stdoutLines
  ⟨st.updated, st.notUpdated, st.hadNone, rc, []⟩

/-- Disjointness of the two lists of a returned result (an exception has
no lists, so it trivially satisfies the check). -/
def resultListsDisjoint (e : Except InstallError InstallOutcome) : Bool :=
  match e with
  | .error _ => true
  | .ok r => decide (∀ x ∈ r.installed, x ∉ r.failed)

/-!  ## Helper lemmas about the install stream loop -/

/-- A line whose `App installed successfully:` capture is empty never
extends the `installed` list (the start and failed branches do not touch
it). -/
lemma installStep_installed (st : InstallLoop) (raw : List Char)
    (hok : markerCapture okMarker (rstripCRLF raw) = none) :
    (installStep st raw).installed = st.installed := by
  unfold installStep
  cases hs : markerCapture startMarker (rstripCRLF raw) with
  | some sid => simp [hs]
  | none =>
    cases hf : markerCapture failedMarker (rstripCRLF raw) with
    | some cap => simp [hs, hok, hf]
    | none => simp [hs, hok, hf]

/-- A line whose `FAILED_APPS:` capture is empty never changes the
pending failed-id list. -/
lemma installStep_failedFromSummary (st : InstallLoop) (raw : List Char)
    (hf : markerCapture failedMarker (rstripCRLF raw) = none) :
    (installStep st raw).failedFromSummary = st.failedFromSummary := by
  unfold installStep
  cases hs : markerCapture startMarker (rstripCRLF raw) with
  | some sid => simp [hs]
  | none =>
    cases hok : markerCapture okMarker (rstripCRLF raw) with
    | some oid => simp [hs, hok]
    | none => simp [hs, hok, hf]

/-- A line that matches neither the start nor the ok marker but matches
the `FAILED_APPS:` marker overwrites the pending failed-id list with the
parse of its capture. -/
lemma installStep_failed_override (st : InstallLoop) (raw : List Char) (cap : List Char)
    (hs : markerCapture startMarker (rstripCRLF raw) = none)
    (hok : markerCapture okMarker (rstripCRLF raw) = none)
    (hf : markerCapture failedMarker (rstripCRLF raw) = some cap) :
    (installStep st raw).failedFromSummary = parseFailedIds cap := by
  unfold installStep
  simp [hs, hok, hf]

/-- Over a stream with no ok captures, the `installed` list never grows. -/
lemma foldl_installed (lines : List (List Char)) (st : InstallLoop)
    (hok : ∀ l ∈ lines, markerCapture okMarker (rstripCRLF l) = none) :
    (lines.foldl installStep st).installed = st.installed := by
  induction lines generalizing st with
  | nil => rfl
  | cons l ls ih =>
    rw [List.foldl_cons, ih _ (fun x hx => hok x (by simp [hx]))]
    exact installStep_installed st l (hok l (by simp))

/-- Over a stream with no `FAILED_APPS:` captures, the pending failed-id
list never changes. -/
lemma foldl_failedFromSummary (lines : List (List Char)) (st : InstallLoop)
    (hf : ∀ l ∈ lines, markerCapture failedMarker (rstripCRLF l) = none) :
    (lines.foldl installStep st).failedFromSummary = st.failedFromSummary := by
  induction lines generalizing st with
  | nil => rfl
  | cons l ls ih =>
    rw [List.foldl_cons, ih _ (fun x hx => hf x (by simp [hx]))]
    exact installStep_failedFromSummary st l (hf l (by simp))

lemma isEmpty_false_of_ne_nil {α : Type} {l : List α} (h : l ≠ []) :
    l.isEmpty = false := by
  cases l with
  | nil => exact absurd rfl h
  | cons a as => rfl

/-- Unfolding of `run_winget_ps_install` on a non-empty request with an
existing script: the outcome is determined by the loop state. -/
lemma run_install_spawn (ids lines : List (List Char)) (rc : Int)
    (stderr : List Char) (hids : ids.isEmpty = false) :
    run_winget_ps_install true ids lines rc stderr =
      (if rc ≠ 0 ∧
          (if (lines.foldl installStep installLoopInit).failedFromSummary = []
           then [] else (lines.foldl installStep installLoopInit).failedFromSummary) = [] ∧
          (lines.foldl installStep installLoopInit).installed = [] then
        .error (.processFailure (installFailMsg stderr))
      else
        .ok ⟨(lines.foldl installStep installLoopInit).installed,
             (if (lines.foldl installStep installLoopInit).failedFromSummary = []
              then [] else (lines.foldl installStep installLoopInit).failedFromSummary),
             (lines.foldl installStep installLoopInit).events, true, []⟩) := by
  unfold run_winget_ps_install
  rw [hids]
  simp

/-!  ## Claims -/

/-- C10: calling the install operation with an empty list of requested
package identifiers returns `([], [])` immediately: no process is
spawned, no event callback is invoked, and the missing-script error is
not raised even when the backing script file does not exist, because the
empty-input check precedes the script-existence check. -/
theorem C10_empty_ids (scriptExists : Bool) (lines : List (List Char))
    (rc : Int) (stderr : List Char) :
    run_winget_ps_install scriptExists [] lines rc stderr =
      .ok ⟨[], [], [], false, []⟩ := rfl

/-- Stream of the spec's own scenario: A.App starts and succeeds, B.App
starts, then the stream closes and the process exits 1. -/
def c1Lines : List (List Char) :=
  ["Installing app via winget: A.App".data,
   "App installed successfully: A.App".data,
   "Installing app via winget: B.App".data]

/-- C1 counterexample: on the claim's own example (requested ids
`A.App`, `B.App`, stream marking only `A.App` Ok, exit code 1) the code
returns succeeded `["A.App"]` and failed `[]`, not failed `["B.App"]`:
ids absent from the Ok list are not inferred as failed. -/
theorem C1_cex :
    installedOf (run_winget_ps_install true ["A.App".data, "B.App".data]
        c1Lines 1 []) = some ["A.App".data] ∧
    failedOf (run_winget_ps_install true ["A.App".data, "B.App".data]
        c1Lines 1 []) = some [] ∧
    some ([] : List (List Char)) ≠ some ["B.App".data] := by
  refine ⟨by decide, by decide, by decide⟩

/-- C1 (amended): for every install run that returns a result and whose
stream contains no `FAILED_APPS` capture, the failed list of the result
is empty (requested ids not marked Ok are not inferred as failed) and
the succeeded list is the list of Ok-marked ids in stream order. -/
theorem C1_no_failed_marker (ids lines : List (List Char)) (rc : Int)
    (stderr : List Char)
    (hids : ids ≠ [])
    (hf : ∀ l ∈ lines, markerCapture failedMarker (rstripCRLF l) = none)
    (hres : rc = 0 ∨ (lines.foldl installStep installLoopInit).installed ≠ []) :
    run_winget_ps_install true ids lines rc stderr =
      .ok ⟨(lines.foldl installStep installLoopInit).installed, [],
           (lines.foldl installStep installLoopInit).events, true, []⟩ := by
  have hids' : ids.isEmpty = false := isEmpty_false_of_ne_nil hids
  have hfs : (lines.foldl installStep installLoopInit).failedFromSummary = [] :=
    foldl_failedFromSummary lines installLoopInit hf
  have hcond : ¬(rc ≠ 0 ∧ ([] : List (List Char)) = [] ∧
      (lines.foldl installStep installLoopInit).installed = []) := by
    rcases hres with h0 | hne
    · exact fun hc => hc.1 h0
    · exact fun hc => hne hc.2.2
  rw [run_install_spawn ids lines rc stderr hids', hfs, if_pos rfl, if_neg hcond]

/-- C1 witness: the amended claim on the spec's scenario. -/
theorem C1_no_failed_marker_witness :
    (["A.App".data, "B.App".data] ≠ ([] : List (List Char)) ∧
      (∀ l ∈ c1Lines, markerCapture failedMarker (rstripCRLF l) = none) ∧
      (c1Lines.foldl installStep installLoopInit).installed ≠ []) ∧
    run_winget_ps_install true ["A.App".data, "B.App".data] c1Lines 1 [] =
      .ok ⟨(c1Lines.foldl installStep installLoopInit).installed, [],
           (c1Lines.foldl installStep installLoopInit).events, true, []⟩ := by
  refine ⟨⟨by decide, by decide, by decide⟩, ?_⟩
  exact C1_no_failed_marker ["A.App".data, "B.App".data] c1Lines 1 []
    (by decide) (by decide) (Or.inr (by decide))

/-- C2: for every install run over a non-empty request that exits
non-zero and whose stream produced no Ok capture and no FAILED_APPS
capture, the operation raises the process-failure error carrying the
stderr excerpt truncated to the first 10 lines; in particular it never
returns a result (so never an empty-empty result). -/
theorem C2_process_failure (ids lines : List (List Char)) (rc : Int)
    (stderr : List Char)
    (hids : ids ≠ [])
    (hrc : rc ≠ 0)
    (hok : ∀ l ∈ lines, markerCapture okMarker (rstripCRLF l) = none)
    (hf : ∀ l ∈ lines, markerCapture failedMarker (rstripCRLF l) = none) :
    run_winget_ps_install true ids lines rc stderr =
      .error (.processFailure (installFailMsg stderr)) := by
  have hids' : ids.isEmpty = false := isEmpty_false_of_ne_nil hids
  have hinst : (lines.foldl installStep installLoopInit).installed = [] :=
    foldl_installed lines installLoopInit hok
  have hfs : (lines.foldl installStep installLoopInit).failedFromSummary = [] :=
    foldl_failedFromSummary lines installLoopInit hf
  rw [run_install_spawn ids lines rc stderr hids', hfs, hinst, if_pos rfl,
    if_pos ⟨hrc, rfl, rfl⟩]

/-- C2 witness: exit code 1, a stream with no recognized markers, and a
three-line stderr. -/
theorem C2_process_failure_witness :
    ((["Mozilla.Firefox".data] : List (List Char)) ≠ [] ∧
      (1 : Int) ≠ 0 ∧
      (∀ l ∈ ["garbage line".data],
        markerCapture okMarker (rstripCRLF l) = none) ∧
      (∀ l ∈ ["garbage line".data],
        markerCapture failedMarker (rstripCRLF l) = none)) ∧
    run_winget_ps_install true ["Mozilla.Firefox".data]
        ["garbage line".data] 1 "boom\nbang".data =
      .error (.processFailure (installFailMsg "boom\nbang".data)) := by
  refine ⟨⟨by decide, by decide, by decide, by decide⟩, ?_⟩
  exact C2_process_failure ["Mozilla.Firefox".data] ["garbage line".data]
    1 "boom\nbang".data (by decide) (by decide) (by decide) (by decide)

/-- C3: a stream line matching only the `FAILED_APPS:` marker overwrites
the failed list with the comma-split, trimmed, nonempty entries of its
capture; provided no later line matches that marker again and the parsed
list is non-empty, the returned failed list is exactly that list,
regardless of the lines before it (any number of Ok markers) and
regardless of the exit code. -/
theorem C3_failed_override (ids pre post : List (List Char)) (faLine : List Char)
    (rc : Int) (stderr : List Char) (cap : List Char)
    (hids : ids ≠ [])
    (hs : markerCapture startMarker (rstripCRLF faLine) = none)
    (hok : markerCapture okMarker (rstripCRLF faLine) = none)
    (hfa : markerCapture failedMarker (rstripCRLF faLine) = some cap)
    (hpost : ∀ l ∈ post, markerCapture failedMarker (rstripCRLF l) = none)
    (hne : parseFailedIds cap ≠ []) :
    failedOf (run_winget_ps_install true ids (pre ++ faLine :: post) rc stderr) =
      some (parseFailedIds cap) := by
  have hids' : ids.isEmpty = false := isEmpty_false_of_ne_nil hids
  have hfs : ((pre ++ faLine :: post).foldl installStep installLoopInit).failedFromSummary =
      parseFailedIds cap := by
    rw [List.foldl_append, List.foldl_cons,
      foldl_failedFromSummary post _ hpost,
      installStep_failed_override _ faLine cap hs hok hfa]
  have hcond : ¬(rc ≠ 0 ∧ parseFailedIds cap = [] ∧
      ((pre ++ faLine :: post).foldl installStep installLoopInit).installed = []) :=
    fun hc => hne hc.2.1
  rw [run_install_spawn ids (pre ++ faLine :: post) rc stderr hids', hfs,
    if_neg hne, if_neg hcond]
  rfl

/-- C3 witness: the spec's example, `FAILED_APPS: a, b` after one Ok
marker with exit code 2 yields failed `["a", "b"]`. -/
theorem C3_failed_override_witness :
    ((["a".data, "b".data] : List (List Char)) ≠ [] ∧
      markerCapture startMarker (rstripCRLF "FAILED_APPS: a, b".data) = none ∧
      markerCapture okMarker (rstripCRLF "FAILED_APPS: a, b".data) = none ∧
      markerCapture failedMarker (rstripCRLF "FAILED_APPS: a, b".data) =
        some "a, b".data ∧
      parseFailedIds "a, b".data ≠ []) ∧
    (parseFailedIds "a, b".data = ["a".data, "b".data] ∧
      failedOf (run_winget_ps_install true ["a".data, "b".data]
        (["App installed successfully: a".data] ++ "FAILED_APPS: a, b".data :: [])
        2 []) = some (parseFailedIds "a, b".data)) := by
  refine ⟨⟨by decide, by decide, by decide, by decide, by decide⟩, by decide, ?_⟩
  exact C3_failed_override ["a".data, "b".data]
    ["App installed successfully: a".data] [] "FAILED_APPS: a, b".data 2 []
    "a, b".data (by decide) (by decide) (by decide) (by decide)
    (by decide) (by decide)

/-- Stream in which the same identifier is marked Ok and also listed in
`FAILED_APPS`. -/
def c4Lines : List (List Char) :=
  ["App installed successfully: X".data, "FAILED_APPS: X".data]

/-- C4 counterexample: the invariant succeeded ∩ failed = ∅ does not
hold for every input stream: when an id is marked Ok and also appears in
the `FAILED_APPS` list, the returned result carries it in both lists. -/
theorem C4_cex :
    installedOf (run_winget_ps_install true ["X".data] c4Lines 0 []) =
      some ["X".data] ∧
    failedOf (run_winget_ps_install true ["X".data] c4Lines 0 []) =
      some ["X".data] ∧
    resultListsDisjoint (run_winget_ps_install true ["X".data] c4Lines 0 []) =
      false := by
  refine ⟨by decide, by decide, by decide⟩

/-- C4 (amended): the succeeded and failed lists of a returned result
are disjoint whenever no id marked Ok in the stream also occurs in the
stream's final `FAILED_APPS`-derived list (the failed list is always
either empty or that marker-derived list). -/
theorem C4_disjoint (scriptExists : Bool) (ids lines : List (List Char))
    (rc : Int) (stderr : List Char)
    (h : ∀ x ∈ (lines.foldl installStep installLoopInit).installed,
        x ∉ (lines.foldl installStep installLoopInit).failedFromSummary) :
    resultListsDisjoint (run_winget_ps_install scriptExists ids lines rc stderr) =
      true := by
  by_cases hids : ids.isEmpty
  · simp [run_winget_ps_install, hids, resultListsDisjoint]
  · cases scriptExists with
    | false =>
      simp [run_winget_ps_install, hids, resultListsDisjoint]
    | true =>
      rw [run_install_spawn ids lines rc stderr (by simpa using hids)]
      by_cases hfs : (lines.foldl installStep installLoopInit).failedFromSummary = []
      · rw [hfs, if_pos rfl]
        by_cases hc : rc ≠ 0 ∧ ([] : List (List Char)) = [] ∧
            (lines.foldl installStep installLoopInit).installed = []
        · rw [if_pos hc]; rfl
        · rw [if_neg hc]
          simp [resultListsDisjoint]
      · rw [if_neg hfs]
        by_cases hc : rc ≠ 0 ∧
            (lines.foldl installStep installLoopInit).failedFromSummary = [] ∧
            (lines.foldl installStep installLoopInit).installed = []
        · rw [if_pos hc]; rfl
        · rw [if_neg hc]
          simp only [resultListsDisjoint, decide_eq_true_eq]
          exact h

/-- C4 witness: the amended claim on a stream whose Ok id does not occur
in the `FAILED_APPS` list. -/
theorem C4_disjoint_witness :
    (∀ x ∈ ((["App installed successfully: A".data,
        "FAILED_APPS: B".data] : List (List Char)).foldl installStep
          installLoopInit).installed,
      x ∉ ((["App installed successfully: A".data,
        "FAILED_APPS: B".data] : List (List Char)).foldl installStep
          installLoopInit).failedFromSummary) ∧
    resultListsDisjoint (run_winget_ps_install true ["A".data, "B".data]
      ["App installed successfully: A".data, "FAILED_APPS: B".data] 1 []) =
      true := by
  refine ⟨by decide, ?_⟩
  exact C4_disjoint true ["A".data, "B".data]
    ["App installed successfully: A".data, "FAILED_APPS: B".data] 1 []
    (by decide)

/-- C5 counterexample: the install run and the upgrade-all worker write
no log artifact at all (their file-write trace is empty on a concrete
successful run), while the setup path does write `winget-setup.log`;
so it is not the case that both the install and the upgrade-all
algorithms write a log artifact. -/
theorem C5_cex :
    writesOf (run_winget_ps_install true ["A".data]
      ["App installed successfully: A".data] 0 []) = some [] ∧
    (on_upgrade_all ["UPGRADE_SUMMARY_BEGIN".data, "UPGRADE_NONE".data,
      "UPGRADE_SUMMARY_END".data] 0).writes = [] ∧
    (run_winget_ps_setup true 0 [] [] true).1 = [winget_setup_log] := by
  refine ⟨by decide, by decide, by decide⟩

/-- C5 (amended): only the setup algorithm writes the best-effort log
artifact `winget-setup.log`; a failure of that write is swallowed and
never changes the setup outcome; the install and upgrade-all algorithms
write no log artifact. -/
theorem C5_setup_log_only (rc rc2 : Int) (stdout stderr stderr2 : List Char)
    (scriptExists : Bool) (ids lines rawLines : List (List Char)) :
    (run_winget_ps_setup true rc stdout stderr true).1 = [winget_setup_log] ∧
    (run_winget_ps_setup true rc stdout stderr true).2 =
      (run_winget_ps_setup true rc stdout stderr false).2 ∧
    (writesOf (run_winget_ps_install scriptExists ids lines rc2 stderr2) = none ∨
      writesOf (run_winget_ps_install scriptExists ids lines rc2 stderr2) = some []) ∧
    (on_upgrade_all rawLines rc2).writes = [] := by
  refine ⟨?_, ?_, ?_, rfl⟩
  · unfold run_winget_ps_setup
    by_cases hrc : rc ≠ 0 <;> simp [hrc]
  · unfold run_winget_ps_setup
    by_cases hrc : rc ≠ 0 <;> simp [hrc]
  · by_cases hids : ids.isEmpty
    · simp [run_winget_ps_install, hids, writesOf]
    · cases scriptExists with
      | false => simp [run_winget_ps_install, hids, writesOf]
      | true =>
        rw [run_install_spawn ids lines rc2 stderr2 (by simpa using hids)]
        split <;> split <;> first | exact Or.inl rfl | exact Or.inr rfl

/-- C6: when the probe ran with exit code zero and its combined output
contains a `major.minor.patch` pattern, the comparison against the
minimum triple (1, 12, 0) is lexicographic: the status is Outdated
exactly when the parsed triple is lexicographically below the minimum,
and Ok exactly when it is equal or above. -/
lemma get_winget_state_found (stdout stderr : List Char) (v : Nat × Nat × Nat)
    (hv : findVersion (pyStrip (stdout ++ stderr)) = some v) :
    get_winget_state true 0 stdout stderr =
      (if pyTupleLt v MIN_WINGET_VERSION then (.outdated, some (versionChars v))
       else (.ok, some (versionChars v))) := by
  simp [get_winget_state, hv]

lemma get_winget_state_notfound (stdout stderr : List Char)
    (hv : findVersion (pyStrip (stdout ++ stderr)) = none) :
    get_winget_state true 0 stdout stderr =
      (.ok, if (pyStrip (stdout ++ stderr)).isEmpty then none
            else some (pyStrip (stdout ++ stderr))) := by
  simp [get_winget_state, hv]

theorem C6_version_lex (stdout stderr : List Char) (a b c : Nat)
    (hv : findVersion (pyStrip (stdout ++ stderr)) = some (a, b, c)) :
    ((get_winget_state true 0 stdout stderr).1 = .outdated ↔
      (a < 1 ∨ (a = 1 ∧ b < 12))) ∧
    ((get_winget_state true 0 stdout stderr).1 = .ok ↔
      (1 < a ∨ (a = 1 ∧ 12 ≤ b))) := by
  have hlt : pyTupleLt (a, b, c) MIN_WINGET_VERSION = true ↔
      a < 1 ∨ (a = 1 ∧ b < 12) := by
    simp [pyTupleLt, MIN_WINGET_VERSION]
  rw [get_winget_state_found stdout stderr (a, b, c) hv]
  by_cases h : pyTupleLt (a, b, c) MIN_WINGET_VERSION = true
  · rw [if_pos h]
    have hp := hlt.mp h
    exact ⟨iff_of_true rfl hp, iff_of_false (by simp) (by omega)⟩
  · rw [if_neg h]
    have hp : ¬(a < 1 ∨ (a = 1 ∧ b < 12)) := fun hx => h (hlt.mpr hx)
    exact ⟨iff_of_false (by simp) (by omega), iff_of_true rfl (by omega)⟩

/-- C6 witness: the spec's examples, 1.11.9 is Outdated while 1.12.0 and
1.12.1 are Ok. -/
theorem C6_version_lex_witness :
    (findVersion (pyStrip ("v1.11.9".data ++ [])) = some (1, 11, 9) ∧
      (get_winget_state true 0 "v1.11.9".data []).1 = .outdated) ∧
    (get_winget_state true 0 "1.12.0".data []).1 = .ok ∧
    (get_winget_state true 0 "1.12.1".data []).1 = .ok := by
  refine ⟨⟨by decide, ?_⟩, ?_, ?_⟩
  · exact (C6_version_lex "v1.11.9".data [] 1 11 9 (by decide)).1.mpr
      (by decide)
  · exact (C6_version_lex "1.12.0".data [] 1 12 0 (by decide)).2.mpr
      (by decide)
  · exact (C6_version_lex "1.12.1".data [] 1 12 1 (by decide)).2.mpr
      (by decide)

/-- C7: a probe that runs and exits zero but whose combined trimmed
output contains no `major.minor.patch` pattern reports Ok, carrying the
raw trimmed text as version string (none when the trimmed text is
empty); a probe that cannot run, or that exits non-zero, reports
Missing. -/
theorem C7_unparsable_ok (stdout stderr : List Char) (rc : Int) :
    (findVersion (pyStrip (stdout ++ stderr)) = none →
      get_winget_state true 0 stdout stderr =
        (.ok, if (pyStrip (stdout ++ stderr)).isEmpty then none
              else some (pyStrip (stdout ++ stderr)))) ∧
    get_winget_state false rc stdout stderr = (.missing, none) ∧
    (rc ≠ 0 → get_winget_state true rc stdout stderr = (.missing, none)) := by
  refine ⟨?_, rfl, ?_⟩
  · intro h
    exact get_winget_state_notfound stdout stderr h
  · intro hrc
    simp [get_winget_state, hrc]

/-- C7 witness: unparsable output `hello` is Ok with the raw text as
version; a probe that cannot run and a probe exiting 1 are Missing. -/
theorem C7_unparsable_ok_witness :
    (findVersion (pyStrip ("hello".data ++ [])) = none ∧
      get_winget_state true 0 "hello".data [] = (.ok, some "hello".data)) ∧
    get_winget_state false 1 [] [] = (.missing, none) ∧
    ((1 : Int) ≠ 0 ∧ get_winget_state true 1 [] [] = (.missing, none)) := by
  obtain ⟨h1, h2, h3⟩ := C7_unparsable_ok "hello".data [] 1
  exact ⟨⟨by decide, (h1 (by decide)).trans (by decide)⟩, h2,
    by decide, h3 (by decide)⟩

/-- While the inside-block flag is off, any line other than the two
sentinels leaves the parser state completely unchanged (even a line
starting with one of the record prefixes). -/
lemma upgradeStep_outside (st : UpgradeSummary) (l : List Char)
    (hin : st.inside = false) (hb : l ≠ SUMMARY_BEGIN) (he : l ≠ SUMMARY_END) :
    upgradeStep st l = st := by
  unfold upgradeStep
  rw [if_neg hb, if_neg he, if_pos hin]

/-- Folding the parser over non-sentinel lines from an outside-block
state is the identity. -/
lemma foldl_outside (noise : List (List Char)) (st : UpgradeSummary)
    (hin : st.inside = false)
    (hn : ∀ l ∈ noise, l ≠ SUMMARY_BEGIN ∧ l ≠ SUMMARY_END) :
    noise.foldl upgradeStep st = st := by
  induction noise with
  | nil => rfl
  | cons l ls ih =>
    have h := hn l (by simp)
    rw [List.foldl_cons, upgradeStep_outside st l hin h.1 h.2]
    exact ih (fun x hx => hn x (by simp [hx]))

/-- C8: lines occurring while the inside-block flag is off leave the
accumulated updated and not-updated lists unchanged, even when they
carry an `UPDATED_APP: ` or `NOT_UPDATED_APP: ` prefix: parsing a
stream with such outside noise inserted (any lines other than the two
sentinel lines themselves) gives exactly the same parser state as
parsing the stream without it. -/
theorem C8_outside_noise (ls1 noise ls2 : List (List Char))
    (hin : (ls1.foldl upgradeStep upgradeInit).inside = false)
    (hn : ∀ l ∈ noise, l ≠ SUMMARY_BEGIN ∧ l ≠ SUMMARY_END) :
    parseUpgradeSummary (ls1 ++ noise ++ ls2) =
      parseUpgradeSummary (ls1 ++ ls2) := by
  unfold parseUpgradeSummary
  rw [List.foldl_append, List.foldl_append, List.foldl_append,
    foldl_outside noise _ hin hn]

/-- C8 witness: a spurious `UPDATED_APP: ` line before the summary block
does not change the parse. -/
theorem C8_outside_noise_witness :
    ((([] : List (List Char)).foldl upgradeStep upgradeInit).inside = false ∧
      (∀ l ∈ ["UPDATED_APP: Foo|f.id".data],
        l ≠ SUMMARY_BEGIN ∧ l ≠ SUMMARY_END)) ∧
    parseUpgradeSummary ([] ++ ["UPDATED_APP: Foo|f.id".data] ++
        [SUMMARY_BEGIN, "UPDATED_APP: Bar|b.id".data, SUMMARY_END]) =
      parseUpgradeSummary ([] ++
        [SUMMARY_BEGIN, "UPDATED_APP: Bar|b.id".data, SUMMARY_END]) := by
  refine ⟨⟨by decide, by decide⟩, ?_⟩
  exact C8_outside_noise [] ["UPDATED_APP: Foo|f.id".data]
    [SUMMARY_BEGIN, "UPDATED_APP: Bar|b.id".data, SUMMARY_END]
    (by decide) (by decide)

lemma ne_of_take_ne {α : Type} (l1 l2 : List α) (n : Nat)
    (h : l1.take n ≠ l2.take n) : l1 ≠ l2 :=
  fun he => h (he ▸ rfl)

lemma isPrefixOf_append_self (p t : List Char) :
    p.isPrefixOf (p ++ t) = true := by
  induction p with
  | nil => cases t <;> rfl
  | cons c cs ih =>
    show ((c == c) && cs.isPrefixOf (cs ++ t)) = true
    rw [ih]
    simp

lemma getD_four_empty (k : Nat) :
    ([[], [], [], []] : List (List Char)).getD k [] = [] := by
  rcases k with _ | _ | _ | _ | k <;> rfl

lemma getD_pad4 (parts : List (List Char)) (i : Nat) :
    (parts ++ [[], [], [], []]).getD i [] = parts.getD i [] := by
  by_cases h : i < parts.length
  · exact List.getD_append parts _ [] i h
  · rw [List.getD_append_right parts _ [] i (Nat.le_of_not_lt h),
      List.getD_eq_default parts [] (Nat.le_of_not_lt h), getD_four_empty]

/-- C9: inside the summary block, a line with the `UPDATED_APP: ` prefix
appends the parse of its payload at the end of the updated list (and a
`NOT_UPDATED_APP: ` line does the same on the not-updated list, leaving
the other list untouched), where the payload parse splits on the `|`
delimiter into up to 4 trimmed fields in order (name, id,
currentVersion, availableVersion), missing trailing fields defaulting to
the empty string. -/
theorem C9_record_lines (st : UpgradeSummary) (payload : List Char)
    (hin : st.inside = true) :
    upgradeStep st (updatedMark ++ payload) =
      { st with updated := st.updated ++ [parseAppFields payload] } ∧
    upgradeStep st (notUpdatedMark ++ payload) =
      { st with notUpdated := st.notUpdated ++ [parseAppFields payload] } ∧
    parseAppFields payload =
      ⟨((splitOnChar '|' payload).map pyStrip).getD 0 [],
       ((splitOnChar '|' payload).map pyStrip).getD 1 [],
       ((splitOnChar '|' payload).map pyStrip).getD 2 [],
       ((splitOnChar '|' payload).map pyStrip).getD 3 []⟩ := by
  have hinside : ¬(st.inside = false) := by rw [hin]; simp
  refine ⟨?_, ?_, ?_⟩
  · have hb : updatedMark ++ payload ≠ SUMMARY_BEGIN := by
      apply ne_of_take_ne _ _ 3
      show ¬(['U', 'P', 'D'] = ['U', 'P', 'G'])
      decide
    have he : updatedMark ++ payload ≠ SUMMARY_END := by
      apply ne_of_take_ne _ _ 3
      show ¬(['U', 'P', 'D'] = ['U', 'P', 'G'])
      decide
    have hn : updatedMark ++ payload ≠ UPGRADE_NONE := by
      apply ne_of_take_ne _ _ 3
      show ¬(['U', 'P', 'D'] = ['U', 'P', 'G'])
      decide
    have hp : updatedMark.isPrefixOf (updatedMark ++ payload) = true :=
      isPrefixOf_append_self updatedMark payload
    unfold upgradeStep
    rw [if_neg hb, if_neg he, if_neg hinside, if_neg hn, if_pos hp,
      List.drop_left]
  · have hb : notUpdatedMark ++ payload ≠ SUMMARY_BEGIN := by
      apply ne_of_take_ne _ _ 1
      show ¬(['N'] = ['U'])
      decide
    have he : notUpdatedMark ++ payload ≠ SUMMARY_END := by
      apply ne_of_take_ne _ _ 1
      show ¬(['N'] = ['U'])
      decide
    have hn : notUpdatedMark ++ payload ≠ UPGRADE_NONE := by
      apply ne_of_take_ne _ _ 1
      show ¬(['N'] = ['U'])
      decide
    have hu : updatedMark.isPrefixOf (notUpdatedMark ++ payload) = false := rfl
    have hp : notUpdatedMark.isPrefixOf (notUpdatedMark ++ payload) = true :=
      isPrefixOf_append_self notUpdatedMark payload
    unfold upgradeStep
    rw [if_neg hb, if_neg he, if_neg hinside, if_neg hn]
    rw [if_neg (by rw [hu]; simp : ¬(updatedMark.isPrefixOf
      (notUpdatedMark ++ payload) = true))]
    rw [if_pos hp, List.drop_left]
  · simp only [parseAppFields, getD_pad4]

/-- C9 witness: a two-field payload is padded with empty current and
available versions. -/
theorem C9_record_lines_witness :
    ((⟨[], [], true, false⟩ : UpgradeSummary).inside = true) ∧
    upgradeStep ⟨[], [], true, false⟩ (updatedMark ++ "Foo | f.id".data) =
      ⟨[parseAppFields "Foo | f.id".data], [], true, false⟩ ∧
    parseAppFields "Foo | f.id".data =
      ⟨"Foo".data, "f.id".data, [], []⟩ := by
  refine ⟨rfl, ?_, by decide⟩
  exact (C9_record_lines ⟨[], [], true, false⟩ "Foo | f.id".data rfl).1

end WingetDeploy
